import Mathlib

/-
Verification development for the smu-llm repository.

The definitions below are shallow embeddings of the Python source:
  - src/app/llm.py                      (class LLM: singleton, retry policy,
                                         message formatting, tool-call decoding)
  - src/app/agent/toolcall.py           (class ToolCallAgent: think/act loop,
                                         special-tool handling, summary cascade)
  - src/app/swarm/coordinator.py        (class ResponseCache)
  - src/app/swarm/multi_agent_pipeline.py (class Agent, class MultiAgentPipeline)

Python-level conventions used throughout:
  - fallible Python code is embedded as `Except PyExc`; an uncaught Python
    exception is `Except.error`;
  - Python dicts that preserve insertion order are embedded as association
    lists `List (key, value)` with insertion-ordered update semantics;
  - calls to the completion endpoint are oracles: the embedding takes the
    outcome of each network call as an explicit argument;
  - `json.loads` (a stdlib collaborator) is abstracted by an oracle
    `String -> Option PyJson` (| `String -> Bool` where only validity is
    consulted); every possible response text maps to one of its outcomes.
-/

set_option autoImplicit false

namespace SmuLLM

/-! ## Python exception values -/

/-- Embedding of the Python exception classes that the analysed code can raise
or catch: `json.JSONDecodeError`, `KeyError`, `TypeError`, `ValueError`,
pydantic `ValidationError`, `IndexError`, the repository's `APIError`
(src/app/llm.py line 16), and `tenacity.RetryError` wrapping a final attempt's
exception. -/
inductive PyExc where
  | jsonDecodeError
  | keyError (k : String)
  | typeError (msg : String)
  | valueError (msg : String)
  | validationError
  | indexError
  | apiError (msg : String)
  | retryError (e : PyExc)
deriving DecidableEq

/-! ## List / string helpers used by the embedding -/

/-- `listStartsWith pat l` holds when `pat` is an initial segment of `l`. -/
def listStartsWith : List Char → List Char → Bool
  | [], _ => true
  | _ :: _, [] => false
  | p :: ps, c :: cs => p == c && listStartsWith ps cs

/-- Substring search on character lists (Python `needle in haystack`). -/
def listHasSub : List Char → List Char → Bool
  | l, pat =>
    match l with
    | [] => listStartsWith pat []
    | c :: rest => listStartsWith pat (c :: rest) || listHasSub rest pat

/-- Python `needle in haystack` on strings. -/
def strHasSub (haystack needle : String) : Bool :=
  listHasSub haystack.data needle.data

/-- The characters removed by Python `str.strip()` (the ASCII whitespace
class; the embedding is exact on ASCII text). -/
def pyWhitespace (c : Char) : Bool :=
  (c == ' ') || (c == '\t') || (c == '\n') || (c == '\x0d') ||
    (c == '\x0b') || (c == '\x0c')

/-- Python `s.strip()`. -/
def pyStrip (s : String) : String :=
  String.mk (((s.data.dropWhile pyWhitespace).reverse.dropWhile
    pyWhitespace).reverse)

/-- Split off the part before the first occurrence of `sep` and the part
after it; `none` when `sep` does not occur. -/
def splitFirstSub (sep : List Char) : List Char → Option (List Char × List Char)
  | [] => if listStartsWith sep [] then some ([], []) else none
  | c :: rest =>
    if listStartsWith sep (c :: rest) then some ([], (c :: rest).drop sep.length)
    else (splitFirstSub sep rest).map (fun p => (c :: p.1, p.2))

/-- Fuelled splitting on a (non-empty) separator, left to right. -/
def pySplitFuel (sep : List Char) : Nat → List Char → List (List Char)
  | 0, l => [l]
  | fuel + 1, l =>
    match splitFirstSub sep l with
    | none => [l]
    | some p => p.1 :: pySplitFuel sep fuel p.2

/-- Python `s.split(sep)` for a non-empty separator. -/
def pySplit (s sep : String) : List String :=
  (pySplitFuel sep.data (s.data.length + 1) s.data).map String.mk

/-- Python `s.split(sep, 1)`: the part before the first occurrence of `sep`
and the remainder after it (assuming `sep` occurs in `s`). -/
def splitOnce (s sep : String) : String × String :=
  let parts := pySplit s sep
  (parts.headD "", String.intercalate sep parts.tail)

/-- Python `str.lower()` on one character (exact on ASCII text). -/
def pyLowerChar (c : Char) : Char :=
  if 65 ≤ c.toNat ∧ c.toNat ≤ 90 then Char.ofNat (c.toNat + 32) else c

/-- Python `s.lower()`. -/
def pyLower (s : String) : String :=
  String.mk (s.data.map pyLowerChar)

/-! ## Insertion-ordered dict embedding (Python `dict`) -/

/-- Python `d[k] = v` on an insertion-ordered dict: update in place when the
key is present, append otherwise. -/
def dictSet {β : Type} (d : List (String × β)) (k : String) (v : β) :
    List (String × β) :=
  match d with
  | [] => [(k, v)]
  | (k1, v1) :: rest =>
      if k1 = k then (k, v) :: rest else (k1, v1) :: dictSet rest k v

/-- Python `del d[k]`: remove the (unique) entry with key `k`. -/
def dictDel {β : Type} (d : List (String × β)) (k : String) :
    List (String × β) :=
  match d with
  | [] => []
  | (k1, v1) :: rest => if k1 = k then rest else (k1, v1) :: dictDel rest k

/-! ## ResponseCache (src/app/swarm/coordinator.py lines 8-21) -/

/-- Embedding of `ResponseCache.__init__`: `self.cache = {}` together with the
configured `max_size`. -/
structure ResponseCache where
  cache : List (String × String)
  max_size : Nat
deriving DecidableEq

/-- `ResponseCache(max_size)` (the constructor). -/
def responseCacheNew (maxSize : Nat) : ResponseCache :=
  { cache := [], max_size := maxSize }

/-- `ResponseCache.get`: `self.cache.get(key)` (`None` when absent). -/
def cacheGet (c : ResponseCache) (k : String) : Option String :=
  c.cache.lookup k

/-- `ResponseCache.set` (src/app/swarm/coordinator.py lines 16-21):
when `len(self.cache) >= self.max_size`, delete the entry under
`next(iter(self.cache))` — the earliest-inserted key — then assign
`self.cache[key] = value`.  `next(iter({}))` on an empty dict raises
`StopIteration`, embedded as `none`. -/
def cacheSet (c : ResponseCache) (k v : String) : Option ResponseCache :=
  if c.cache.length ≥ c.max_size then
    match c.cache with
    | [] => none
    | (k0, _) :: _ =>
        some { c with cache := dictSet (dictDel c.cache k0) k v }
  else
    some { c with cache := dictSet c.cache k v }

/-- Sequentially `set` every pair of `kvs` into the cache. -/
def cacheSetMany (c : ResponseCache) (kvs : List (String × String)) :
    Option ResponseCache :=
  kvs.foldlM (fun acc kv => cacheSet acc kv.1 kv.2) c

/-! ## Temperature selection (src/app/llm.py line 114) -/

/-- Embedding of `temp = temperature or self.temperature` in
`LLM._ollama_ask`: Python `or` takes the instance default when the explicit
argument is `None` **or** equal to `0.0` (falsy). -/
def effectiveTemperature (temperature : Option ℚ) (selfTemperature : ℚ) : ℚ :=
  match temperature with
  | none => selfTemperature
  | some t => if t = 0 then selfTemperature else t

/-- The explicit temperature passed by the pipeline's synthesis call
(src/app/swarm/multi_agent_pipeline.py line 161: `temperature=0.2`). -/
def synthesisTemperatureArg : Option ℚ := some (mkRat 2 10)

/-- The HTTP timeout hard-coded in `LLM._ollama_ask` (src/app/llm.py lines
135 and 151): 120 seconds for the non-streaming request, 180 for streaming. -/
def ollamaHttpTimeout (stream : Bool) : ℚ :=
  if stream then 180 else 120

/-! ## Retry policy (src/app/llm.py lines 78-81 and 173-176)

`LLM.ask` and `LLM.ask_tool` are decorated with
`@retry(wait=wait_random_exponential(min=1, max=60), stop=stop_after_attempt(6))`
from the tenacity library (an external dependency).  tenacity semantics as
configured: the wrapped function is attempted up to `stop_after_attempt`
times; the first successful attempt's value is returned unchanged; once the
stop condition is reached the final attempt's exception is wrapped in
`tenacity.RetryError` (the decorator does not set `reraise=True`, whose
default is `False`).  The attempt outcomes are an oracle `f`, attempt `i`
being `f i`. -/

/-- One retry loop: `fuel` further attempts remain after the current one;
on the last attempt a failure is wrapped in `RetryError`. -/
def tenacityRetryGo {α : Type} (f : Nat → Except PyExc α) :
    Nat → Nat → Except PyExc α
  | i, 0 =>
      match f i with
      | .ok a => .ok a
      | .error e => .error (.retryError e)
  | i, fuel + 1 =>
      match f i with
      | .ok a => .ok a
      | .error _ => tenacityRetryGo f (i + 1) fuel

/-- `@retry(..., stop=stop_after_attempt(attempts))` applied to a call whose
per-attempt outcomes are `f 0, f 1, ...`. -/
def tenacityRetry {α : Type} (attempts : Nat) (f : Nat → Except PyExc α) :
    Except PyExc α :=
  tenacityRetryGo f 0 (attempts - 1)

/-- `stop_after_attempt(6)` as configured on both `ask` and `ask_tool`. -/
def askRetryAttempts : Nat := 6

/-- `wait_random_exponential(min=1, ...)` lower window bound as configured. -/
def askRetryWaitMin : ℚ := 1

/-- `wait_random_exponential(..., max=60)` upper window bound as configured. -/
def askRetryWaitMax : ℚ := 60

/-! ## Python JSON values and container operations

The result of a successful `json.loads` is one of: `None`, a bool, a number,
a string, a list, or a dict.  The dynamic operations the decode boundary of
`LLM.ask_tool` performs on such values (`in`, subscription, iteration, item
assignment) are embedded with their Python semantics, including the
`TypeError`s raised on unsupported receivers. -/

/-- A parsed Python JSON value. -/
inductive PyJson where
  | null
  | bool (b : Bool)
  | num (n : Int)
  | str (s : String)
  | arr (xs : List PyJson)
  | obj (kvs : List (String × PyJson))

/-- Python `needle in v` for a string needle: key test on dicts, membership
on lists, substring test on strings; `TypeError` on any other receiver. -/
def pyIn (needle : String) (v : PyJson) : Except PyExc Bool :=
  match v with
  | .obj kvs => .ok (kvs.any (fun p => p.1 == needle))
  | .arr xs =>
      .ok (xs.any (fun x =>
        match x with
        | .str s => s == needle
        | _ => false))
  | .str s => .ok (strHasSub s needle)
  | _ => .error (.typeError "argument of type is not iterable")

/-- Python `v[key]` for a string key: dict lookup (raising `KeyError` when
absent); `TypeError` on strings, lists, and every other receiver. -/
def pyIndex (key : String) (v : PyJson) : Except PyExc PyJson :=
  match v with
  | .obj kvs =>
      match kvs.lookup key with
      | some x => .ok x
      | none => .error (.keyError key)
  | .str _ => .error (.typeError "string indices must be integers")
  | .arr _ => .error (.typeError "list indices must be integers")
  | _ => .error (.typeError "object is not subscriptable")

/-- Python `for x in v`: the elements of a list, the one-character strings of
a string, the keys of a dict; `TypeError` on any other receiver. -/
def pyIter (v : PyJson) : Except PyExc (List PyJson) :=
  match v with
  | .arr xs => .ok xs
  | .str s => .ok (s.data.map (fun c => .str (String.singleton c)))
  | .obj kvs => .ok (kvs.map (fun p => .str p.1))
  | _ => .error (.typeError "object is not iterable")

/-- Python `v[key] = x` for a string key: insertion-ordered dict assignment;
`TypeError` on every other receiver. -/
def pySetItem (key : String) (x : PyJson) (v : PyJson) : Except PyExc PyJson :=
  match v with
  | .obj kvs => .ok (.obj (dictSet kvs key x))
  | _ => .error (.typeError "object does not support item assignment")

/-! ## json.dumps on a str-to-str dict (used by argument recovery) -/

/-- One hexadecimal digit, lowercase (as produced by `json.dumps`). -/
def hexDigit (n : Nat) : Char :=
  if n < 10 then Char.ofNat (48 + n) else Char.ofNat (87 + n)

/-- Four-digit lowercase hexadecimal rendering of `n < 0x10000`. -/
def hex4 (n : Nat) : String :=
  String.mk [hexDigit (n / 4096 % 16), hexDigit (n / 256 % 16),
             hexDigit (n / 16 % 16), hexDigit (n % 16)]

/-- `json.dumps` escaping of a single character with the default
`ensure_ascii=True`: backslash, quote, the short control escapes, `\uXXXX`
for other control and non-ASCII characters (surrogate pairs beyond the basic
plane). -/
def jsonEscapeChar (c : Char) : String :=
  if c = '\\' then "\\\\"
  else if c = '"' then "\\\""
  else if c = '\n' then "\\n"
  else if c = '\t' then "\\t"
  else if c = '\x0d' then "\\r"
  else if c = '\x08' then "\\b"
  else if c = '\x0c' then "\\f"
  else if c.val < 32 ∨ c.val ≥ 127 then
    if c.val < 65536 then "\\u" ++ hex4 c.toNat
    else
      let v := c.toNat - 65536
      "\\u" ++ hex4 (55296 + v / 1024) ++ "\\u" ++ hex4 (56320 + v % 1024)
  else String.singleton c

/-- `json.dumps` rendering of a Python string. -/
def jsonDumpStr (s : String) : String :=
  "\"" ++ String.join (s.data.map jsonEscapeChar) ++ "\""

/-- `json.dumps` rendering of a str-to-str dict with the default separators
`", "` and `": "`. -/
def jsonDumpStrDict (d : List (String × String)) : String :=
  "\x7b" ++
    String.intercalate ", "
      (d.map (fun p => jsonDumpStr p.1 ++ ": " ++ jsonDumpStr p.2)) ++
  "\x7d"

/-! ## Tool-call argument recovery (src/app/llm.py lines 276-287) -/

/-- The dict built by the recovery comprehension
`{k.strip(): v for k, v in [line.split(":", 1) for line in
args.strip().split("\n") if ":" in line]}`: lines of the stripped argument
string that contain a colon, split at the first colon, the key stripped and
the value kept verbatim. -/
def recoverArgsDict (args : String) : List (String × String) :=
  let lines := (pySplit (pyStrip args) "\n").filter (fun l => strHasSub l ":")
  lines.foldl
    (fun acc l =>
      let kv := splitOnce l ":"
      dictSet acc (pyStrip kv.1) kv.2)
    []

/-- `json.dumps` of the recovered dict (the value assigned back to
`tc["function"]["arguments"]`). -/
def recoverArgs (args : String) : String :=
  jsonDumpStrDict (recoverArgsDict args)

/-- Embedding of the argument-normalisation block of `LLM.ask_tool`
(src/app/llm.py lines 276-287) for a string-valued `arguments` field:
`json.loads` succeeding (oracle `loadsOk`) leaves the string untouched;
on `json.JSONDecodeError` the string is replaced by `recoverArgs`. -/
def cleanArguments (loadsOk : String → Bool) (args : String) : String :=
  if loadsOk args then args else recoverArgs args

/-! ## Tool-call decoding (src/app/llm.py lines 253-301) -/

/-- The `Message` value returned by `LLM.ask_tool` after decoding: either an
assistant message carrying tool calls, or a plain assistant message whose
content is the raw response text. -/
inductive DecodedMsg where
  | withTools (toolCalls : List PyJson)
  | plain (content : String)

/-- Modelled from the spec: pydantic validation performed when
`Message(role="assistant", tool_calls=...)` is constructed (`Message` and
`ToolCall` live in app/schema.py, which is not part of the analysed sources).
Per the spec's data model, a tool call is
`{id: string, function name: string, arguments: a string holding a
serialized argument mapping}`; an entry of another shape fails validation. -/
def validToolCallShape (tc : PyJson) : Bool :=
  match tc with
  | .obj kvs =>
      (match kvs.lookup "function" with
       | some (.obj fkvs) =>
           (match fkvs.lookup "name" with
            | some (.str _) => true
            | _ => false) &&
           (match fkvs.lookup "arguments" with
            | some (.str _) => true
            | _ => false)
       | _ => false) &&
      (match kvs.lookup "id" with
       | some (.str _) => true
       | _ => false)
  | _ => false

/-- Per-entry processing of `response_json["tool_calls"]`
(src/app/llm.py lines 268-289): backfill a missing `id` with a fresh
`call_...` token and a missing `type` with `"function"`, then normalise a
string-valued `function.arguments` through `cleanArguments`.  Each dynamic
operation can raise per its Python semantics. -/
def processToolCallEntry (fresh : String) (loadsOk : String → Bool)
    (tc : PyJson) : Except PyExc PyJson := do
  let hasId ← pyIn "id" tc
  let tc ← if hasId then pure tc else pySetItem "id" (.str ("call_" ++ fresh)) tc
  let hasTy ← pyIn "type" tc
  let tc ← if hasTy then pure tc else pySetItem "type" (.str "function") tc
  let fn ← pyIndex "function" tc
  let args ← pyIndex "arguments" fn
  match args with
  | .str s =>
      if loadsOk s then pure tc
      else do
        let fn2 ← pySetItem "arguments" (.str (recoverArgs s)) fn
        pySetItem "function" fn2 tc
  | _ => pure tc

/-- The JSON text submitted to `json.loads` (src/app/llm.py lines 257-263):
the fenced block when the response contains a code fence, the stripped raw
text otherwise. -/
def extractJsonText (responseText : String) : String :=
  if strHasSub responseText "```json" then
    pyStrip ((pySplit ((pySplit responseText "```json").getD 1 "") "```").headD "")
  else pyStrip responseText

/-- Embedding of the decode boundary of `LLM.ask_tool`
(src/app/llm.py lines 253-301) for the case with tools supplied and
`tool_choice != NONE`.  `loads` is the `json.loads` oracle on the extracted
text (`none` = `json.JSONDecodeError`), `loadsOk` the validity oracle used on
argument strings, `fresh i` the uuid token generated for the `i`-th entry.
The inner `try` catches exactly `json.JSONDecodeError` and `KeyError`,
degrading to a plain assistant message carrying the whole response text; any
other exception propagates (the enclosing handler logs and re-raises). -/
def decodeToolResponse (loads : String → Option PyJson)
    (loadsOk : String → Bool) (fresh : Nat → String) (responseText : String) :
    Except PyExc DecodedMsg :=
  let attempt : Except PyExc (Option (List PyJson)) := do
    match loads (extractJsonText responseText) with
    | none => Except.error .jsonDecodeError
    | some responseJson => do
        let hasToolCalls ← pyIn "tool_calls" responseJson
        if hasToolCalls then do
          let raw ← pyIndex "tool_calls" responseJson
          let entries ← pyIter raw
          let processed ← entries.enum.mapM
            (fun p => processToolCallEntry (fresh p.1) loadsOk p.2)
          if processed.all validToolCallShape then pure (some processed)
          else Except.error .validationError
        else pure none
  match attempt with
  | .ok (some tcs) => .ok (.withTools tcs)
  | .ok none => .ok (.plain responseText)
  | .error .jsonDecodeError => .ok (.plain responseText)
  | .error (.keyError _) => .ok (.plain responseText)
  | .error e => .error e

/-! ## Agent data model

`Message`, `ToolCall`, `AgentState` and `ToolChoice` live in app/schema.py,
which is not part of the analysed sources; they are modelled from the spec's
data-model section. -/

/-- Modelled from the spec: the message roles
`{system, user, assistant, tool}` (app/schema.py is not in the sources). -/
inductive Role where
  | system
  | user
  | assistant
  | tool
deriving DecidableEq

/-- Modelled from the spec: a `ToolCall` is
`{id: unique string, function name: string, arguments: a string holding a
serialized argument mapping}` (app/schema.py is not in the sources). -/
structure ToolCallRec where
  id : String
  name : String
  arguments : String
deriving DecidableEq

/-- Modelled from the spec: a `Message` has a role, optional content, the
tool calls of an assistant message, and the `tool_call_id`/`name` fields of a
tool message (app/schema.py is not in the sources). -/
structure MessageRec where
  role : Role
  content : Option String
  tool_calls : List ToolCallRec
  name : Option String
  tool_call_id : Option String
deriving DecidableEq

/-- `Message.user_message` constructor. -/
def userMessage (c : String) : MessageRec :=
  { role := .user, content := some c, tool_calls := [], name := none,
    tool_call_id := none }

/-- `Message.assistant_message` constructor. -/
def assistantMessage (c : Option String) : MessageRec :=
  { role := .assistant, content := c, tool_calls := [], name := none,
    tool_call_id := none }

/-- `Message.from_tool_calls` constructor. -/
def fromToolCalls (c : Option String) (tcs : List ToolCallRec) : MessageRec :=
  { role := .assistant, content := c, tool_calls := tcs, name := none,
    tool_call_id := none }

/-- `Message.tool_message` constructor. -/
def toolMessage (c : String) (callId toolName : String) : MessageRec :=
  { role := .tool, content := some c, tool_calls := [], name := some toolName,
    tool_call_id := some callId }

/-- Modelled from the spec: the agent lifecycle states
`{IDLE, RUNNING, FINISHED, ERROR}` (app/schema.py is not in the sources). -/
inductive AgentStateE where
  | IDLE
  | RUNNING
  | FINISHED
  | ERROR
deriving DecidableEq

/-- Modelled from the spec: the tool-choice modes `{NONE, AUTO, REQUIRED}`
(app/schema.py is not in the sources). -/
inductive ToolChoiceMode where
  | NONE
  | AUTO
  | REQUIRED
deriving DecidableEq

/-- Python truthiness of an `Optional[str]`: `None` and `""` are falsy. -/
def contentTruthy (c : Option String) : Bool :=
  match c with
  | none => false
  | some s => s ≠ ""

/-- The mutable fields of a `ToolCallAgent` instance that the embedded
methods read or write (src/app/agent/toolcall.py lines 18-43). -/
structure AgentSt where
  state : AgentStateE
  memory : List MessageRec
  tool_calls : List ToolCallRec
  original_question : String
  tool_results : List String
  final_summary : String
  max_observe : Option Nat
deriving DecidableEq

/-- A freshly constructed agent state (state `IDLE`, everything empty). -/
def initialAgentSt : AgentSt :=
  { state := .IDLE, memory := [], tool_calls := [], original_question := "",
    tool_results := [], final_summary := "", max_observe := none }

/-- `TOOL_CALL_REQUIRED` (src/app/agent/toolcall.py line 15). -/
def toolCallRequiredMsg : String := "Tool calls required but none provided"

/-- Rendering `str(e)` of an embedded Python exception (used where the code
interpolates a caught exception into a result string). -/
def pyExcStr : PyExc → String
  | .jsonDecodeError => "JSONDecodeError"
  | .keyError k => k
  | .typeError m => m
  | .valueError m => m
  | .validationError => "ValidationError"
  | .indexError => "IndexError"
  | .apiError m => m
  | .retryError e => "RetryError: " ++ pyExcStr e

/-! ## Summary generation (src/app/agent/toolcall.py lines 224-301) -/

/-- The envelope opening marker used by the summary formatters. -/
def answerMarkerOpen : String := "===== FINAL ANSWER ====="

/-- The envelope closing marker (23 equals signs). -/
def answerMarkerClose : String := "======================="

/-- Whether a user-facing text carries the final-answer envelope: both the
opening and the closing marker occur in it (any front end extracts the
answer by splitting on these exact markers). -/
def hasEnvelope (s : String) : Bool :=
  strHasSub s answerMarkerOpen && strHasSub s answerMarkerClose

/-- `ToolCallAgent._generate_fallback_summary`
(src/app/agent/toolcall.py lines 271-301): one plain completion call on the
original question (outcome oracle `fallbackAsk`, applied to the fallback
prompt); on success `final_summary` becomes the enveloped answer, on any
failure it becomes the enveloped apologetic message.  Never raises. -/
def generateFallbackSummary (fallbackAsk : String → Except PyExc String)
    (st : AgentSt) : AgentSt :=
  let fallbackPrompt :=
    st.original_question ++ " Keep your answer simple and under 150 words."
  match fallbackAsk fallbackPrompt with
  | .ok summary =>
      { st with final_summary :=
          answerMarkerOpen ++ "\n\n" ++ summary ++ "\n\n" ++
            answerMarkerClose }
  | .error _ =>
      { st with final_summary :=
          answerMarkerOpen ++
            "\n\nSorry, I couldn\x27t generate an answer to your question: \x27" ++
            st.original_question ++
            "\x27\nPlease try asking again or rephrasing your question.\n\n" ++
            answerMarkerClose }

/-- The first user message with truthy content (the scan at
src/app/agent/toolcall.py lines 230-233); `""` when there is none. -/
def firstUserContent (msgs : List MessageRec) : String :=
  match msgs.find? (fun m => m.role == .user && contentTruthy m.content) with
  | some m => m.content.getD ""
  | none => ""

/-- `ToolCallAgent._generate_summary`
(src/app/agent/toolcall.py lines 224-269): build the summary prompt from the
original question, issue one full completion call (oracle `primaryAsk`); on
success, record `FINAL ANSWER: ...` into memory and return the status-tagged
enveloped text; on any failure, run the fallback generator and return the
bare string `"The interaction has been completed."`.  The `status` tag is
`args.get("status", "success") if args else "success"`.  (The source builds
the prompt as an indented triple-quoted f-string; the embedding normalises
that surrounding whitespace, which only feeds the oracle.) -/
def generateSummary (primaryAsk fallbackAsk : String → Except PyExc String)
    (args : Option (List (String × String))) (st : AgentSt) :
    String × AgentSt :=
  let originalQuestion :=
    if st.original_question ≠ "" then st.original_question
    else firstUserContent st.memory
  let summaryPrompt :=
    "Please provide a clear answer to this question: \"" ++ originalQuestion ++
      "\"\n\nKeep your answer direct, informative, and under 200 words."
  match primaryAsk summaryPrompt with
  | .ok summary =>
      let st2 :=
        { st with memory :=
            st.memory ++ [assistantMessage (some ("FINAL ANSWER: " ++ summary))] }
      let status :=
        match args with
        | none => "success"
        | some kvs =>
            if kvs = [] then "success"
            else (kvs.lookup "status").getD "success"
      ("The interaction has been completed with status: " ++ status ++
         "\n\n" ++ answerMarkerOpen ++ "\n\n" ++ summary ++ "\n\n" ++
         answerMarkerClose,
       st2)
  | .error _ =>
      ("The interaction has been completed.", generateFallbackSummary fallbackAsk st)

/-! ## Special-tool handling (src/app/agent/toolcall.py lines 207-222 and
303-310) -/

/-- `ToolCallAgent._should_finish_execution`: always `True`. -/
def shouldFinishExecution : Bool := true

/-- `ToolCallAgent._is_special_tool`: case-insensitive membership in the
configured special-tool list. -/
def isSpecialTool (specialToolNames : List String) (name : String) : Bool :=
  (specialToolNames.map pyLower).contains (pyLower name)

/-- Modelled from the spec: the default special-tool list is the single
termination tool (`[Terminate().name]`; the `Terminate` class lives in
app/tool, not in the analysed sources; its name, per the comparison
`name.lower() == "terminate"` in the same file, is `"terminate"`). -/
def defaultSpecialToolNames : List String := ["terminate"]

/-- `ToolCallAgent._handle_special_tool`
(src/app/agent/toolcall.py lines 207-222): a non-special name is ignored;
for a special name the code additionally requires
`name.lower() == "terminate"` and the finish predicate, then generates and
stores the final summary and moves the state to `FINISHED`. -/
def handleSpecialTool (specialToolNames : List String)
    (primaryAsk fallbackAsk : String → Except PyExc String) (name : String)
    (args : Option (List (String × String))) (st : AgentSt) : AgentSt :=
  if ¬ isSpecialTool specialToolNames name then st
  else if pyLower name == "terminate" && shouldFinishExecution then
    let p := generateSummary primaryAsk fallbackAsk args st
    { p.2 with final_summary := p.1, state := .FINISHED }
  else st

/-! ## think / act (src/app/agent/toolcall.py lines 45-156) -/

/-- The mode dispatch of `ToolCallAgent.think` after a successful
`ask_tool` response (src/app/agent/toolcall.py lines 61-102): record the
response's tool calls, add the assistant message to memory, and return the
continue/stop signal per tool-choice mode. -/
def thinkDecision (resp : MessageRec) (choice : ToolChoiceMode)
    (st : AgentSt) : Bool × AgentSt :=
  let st1 := { st with tool_calls := resp.tool_calls }
  if choice = .NONE then
    if contentTruthy resp.content then
      (true, { st1 with memory := st1.memory ++ [assistantMessage resp.content] })
    else (false, st1)
  else
    let assistantMsg :=
      if st1.tool_calls ≠ [] then fromToolCalls resp.content st1.tool_calls
      else assistantMessage resp.content
    let st2 := { st1 with memory := st1.memory ++ [assistantMsg] }
    if choice = .REQUIRED ∧ st1.tool_calls = [] then (true, st2)
    else if choice = .AUTO ∧ st1.tool_calls = [] then
      (contentTruthy resp.content, st2)
    else (st1.tool_calls ≠ [], st2)

/-- `ToolCallAgent.think` (src/app/agent/toolcall.py lines 45-120): append
the next-step prompt, issue the tool-enabled completion call (outcome oracle
`askToolOutcome`); on a communication error, generate the fallback summary,
move the state to `FINISHED` and signal stop; on success defer to the mode
dispatch. -/
def think (nextStepPrompt : String)
    (askToolOutcome : Except PyExc MessageRec)
    (fallbackAsk : String → Except PyExc String) (choice : ToolChoiceMode)
    (st : AgentSt) : Bool × AgentSt :=
  let st1 :=
    if nextStepPrompt ≠ "" then
      { st with memory := st.memory ++ [userMessage nextStepPrompt] }
    else st
  match askToolOutcome with
  | .error _ =>
      let st2 := generateFallbackSummary fallbackAsk st1
      (false, { st2 with state := .FINISHED })
  | .ok resp => thinkDecision resp choice st1

/-- Truncation `result[:max_observe]` guarded by `if self.max_observe:`
(src/app/agent/toolcall.py lines 136-137); `None`, `0` are falsy. -/
def truncateObservation (maxObserve : Option Nat) (result : String) : String :=
  match maxObserve with
  | none => result
  | some n => if n ≠ 0 then String.mk (result.data.take n) else result

/-- `ToolCallAgent.act` (src/app/agent/toolcall.py lines 122-156).  With no
pending tool calls: under `REQUIRED`, raise
`ValueError(TOOL_CALL_REQUIRED)`; otherwise return the last message's
content, defaulting to `"No content or commands to execute"` (indexing an
empty memory raises `IndexError`).  Otherwise execute the calls sequentially
through the `executeTool` oracle, truncating and recording each observation,
converting a raised exception into an inline error string, and join the
results with blank lines. -/
def act (executeTool : ToolCallRec → AgentSt → Except PyExc (String × AgentSt))
    (choice : ToolChoiceMode) (st : AgentSt) :
    Except PyExc (String × AgentSt) :=
  if st.tool_calls = [] then
    if choice = .REQUIRED then .error (.valueError toolCallRequiredMsg)
    else
      match st.memory.getLast? with
      | none => .error .indexError
      | some m =>
          let c := m.content.getD ""
          .ok (if c = "" then "No content or commands to execute" else c, st)
  else
    let step :=
      fun (acc : List String × AgentSt) (command : ToolCallRec) =>
        match executeTool command acc.2 with
        | .ok r =>
            let result := truncateObservation acc.2.max_observe r.1
            let st2 :=
              { r.2 with
                tool_results :=
                  r.2.tool_results ++ [command.name ++ ": " ++ result],
                memory :=
                  r.2.memory ++ [toolMessage result command.id command.name] }
            (acc.1 ++ [result], st2)
        | .error e =>
            (acc.1 ++
               ["Error executing tool " ++ command.name ++ ": " ++ pyExcStr e],
             acc.2)
    let final := st.tool_calls.foldl step ([], st)
    .ok (String.intercalate "\n\n" final.1, final.2)

/-- `ToolCallAgent.run` (src/app/agent/toolcall.py lines 312-330): store the
question, delegate to the inherited loop (oracle `superRun`; `ReActAgent`
lives in app/agent/react.py, outside the analysed sources); if the loop left
`final_summary` empty, generate it once more; any exception escaping the
loop is converted into the fallback summary.  Returns the produced text and
the final state. -/
def runAgent (superRun : AgentSt → Except PyExc AgentSt)
    (primaryAsk fallbackAsk : String → Except PyExc String) (question : String)
    (st : AgentSt) : String × AgentSt :=
  let st0 := { st with original_question := question, tool_results := [] }
  match superRun st0 with
  | .error _ =>
      let st2 := generateFallbackSummary fallbackAsk st0
      (st2.final_summary, st2)
  | .ok st1 =>
      if st1.final_summary = "" then
        let p := generateSummary primaryAsk fallbackAsk none st1
        let st3 := { p.2 with final_summary := p.1 }
        (st3.final_summary, st3)
      else (st1.final_summary, st1)

/-! ## LLM singleton (src/app/llm.py lines 21-48) -/

/-- Modelled from the spec: the configuration record consulted by
`LLM.__init__` (`LLMSettings` lives in app/config.py, outside the analysed
sources); only the fields the claims consult are carried. -/
structure LLMSettingsM where
  model : String
  temperature : ℚ
deriving DecidableEq

/-- The per-instance attributes of `LLM` that the claims consult, plus the
`hasattr(self, "client")` initialisation guard. -/
structure LLMInstM where
  model : String
  temperature : ℚ
  hasClient : Bool
deriving DecidableEq

/-- The process-wide `LLM._instances` registry. -/
abbrev LLMStore := List (String × LLMInstM)

/-- `LLM.__init__` (src/app/llm.py lines 33-48): a no-op when the instance
already has its `client` attribute, otherwise populate the attributes from
the configuration. -/
def llmInitFields (cfg : LLMSettingsM) (inst : LLMInstM) : LLMInstM :=
  if inst.hasClient then inst
  else { model := cfg.model, temperature := cfg.temperature, hasClient := true }

/-- `LLM.__new__` (src/app/llm.py lines 24-31): return the registered
instance for `config_name` when present; otherwise construct, initialise and
register a new one.  (Python re-runs `__init__` on the returned instance;
the `hasattr` guard makes that a no-op, so a registered instance is never
re-initialised.) -/
def llmNew (configName : String) (cfg : LLMSettingsM) (store : LLMStore) :
    String × LLMStore :=
  if (store.lookup configName).isSome then (configName, store)
  else
    (configName,
     dictSet store configName
       (llmInitFields cfg
         { model := "", temperature := 0, hasClient := false }))

/-- Update the registered instance under `key` in place. -/
def storeUpdate (store : LLMStore) (key : String) (f : LLMInstM → LLMInstM) :
    LLMStore :=
  store.map (fun p => if p.1 == key then (p.1, f p.2) else p)

/-! ## MultiAgentPipeline agents (src/app/swarm/multi_agent_pipeline.py) -/

/-- A pipeline `Agent` as held after `Agent.__init__`: its name and role,
and the registry key of the gateway handle it stores in `self.llm`. -/
structure AgentRecM where
  name : String
  llmKey : String
  role : String
deriving DecidableEq

/-- `Agent.__init__` (src/app/swarm/multi_agent_pipeline.py lines 12-17):
`self.llm = LLM()` (the `"default"` registry key), then
`self.llm.model = model` and `self.llm.temperature = 0.3` — attribute
assignments on the registered instance. -/
def agentInitM (name model role : String) (cfg : LLMSettingsM)
    (store : LLMStore) : AgentRecM × LLMStore :=
  let ks := llmNew "default" cfg store
  let store1 := storeUpdate ks.2 ks.1 (fun i => { i with model := model })
  let store2 := storeUpdate store1 ks.1 (fun i => { i with temperature := mkRat 3 10 })
  ({ name := name, llmKey := ks.1, role := role }, store2)

/-- `MultiAgentPipeline.__init__`
(src/app/swarm/multi_agent_pipeline.py lines 68-76): construct the three
specialised agents in order. -/
def pipelineInit (cfg : LLMSettingsM) (store : LLMStore) :
    List AgentRecM × LLMStore :=
  let a1 := agentInitM "browser_navigator" "mistral:latest" "Web Navigation" cfg store
  let a2 := agentInitM "researcher" "deepseek-r1:latest" "Research" cfg a1.2
  let a3 := agentInitM "synthesizer" "llama3:8b" "Result Synthesis" cfg a2.2
  ([a1.1, a2.1, a3.1], a3.2)

/-! ## Agent.process_task (src/app/swarm/multi_agent_pipeline.py lines
19-65) -/

/-- The named (non-`self`) parameters of `LLM.ask`
(src/app/llm.py lines 82-88); the signature has no `**kwargs`. -/
def askParamNames : List String :=
  ["messages", "system_msgs", "stream", "temperature"]

/-- The named (non-`self`) parameters of `LLM.ask_tool`
(src/app/llm.py lines 177-186); the signature additionally has `**kwargs`. -/
def askToolParamNames : List String :=
  ["messages", "system_msgs", "timeout", "tools", "tool_choice", "temperature"]

/-- Whether a Python call with the given keyword-argument names binds against
a signature with the given named parameters (and possibly `**kwargs`); a
non-binding call raises `TypeError` at the call site. -/
def kwargsAccepted (params : List String) (hasKwargs : Bool)
    (kwargs : List String) : Bool :=
  hasKwargs || kwargs.all (fun k => params.contains k)

/-- One attempt of the `self.llm.ask(messages=..., stream=False, timeout=30)`
call issued by the plain branch of `Agent.process_task`
(src/app/swarm/multi_agent_pipeline.py lines 47-51): the keyword binding is
checked before the body runs. -/
def plainAskAttempt (askBody : Except PyExc String) : Except PyExc String :=
  if kwargsAccepted askParamNames false ["messages", "stream", "timeout"] then
    askBody
  else .error (.typeError "ask() got an unexpected keyword argument")

/-- One attempt of the
`self.llm.ask_tool(messages=..., tools=..., stream=False, timeout=30)` call
issued by the tool branch of `Agent.process_task`
(src/app/swarm/multi_agent_pipeline.py lines 40-45). -/
def toolAskAttempt (askToolBody : Except PyExc DecodedMsg) :
    Except PyExc DecodedMsg :=
  if kwargsAccepted askToolParamNames true
      ["messages", "tools", "stream", "timeout"] then
    askToolBody
  else .error (.typeError "ask_tool() got an unexpected keyword argument")

/-- `ask_tool` never reads its `timeout` parameter; the request it issues
goes through `_ollama_ask(messages, False, temperature)` whose httpx timeout
is hard-coded (src/app/llm.py lines 129-136 and 251). -/
def askToolRequestTimeout (_timeoutArg : ℚ) : ℚ :=
  ollamaHttpTimeout false

/-- Python truthiness of `task.get('tool_type')`. -/
def taskToolTypeTruthy (toolType : Option String) : Bool :=
  match toolType with
  | none => false
  | some s => s ≠ ""

/-- A task handed to `Agent.process_task`. -/
structure TaskM where
  instructions : String
  tool_type : Option String
deriving DecidableEq

/-- The structured record returned by `Agent.process_task`. -/
structure TaskRecord where
  agent : String
  role : String
  result : String
deriving DecidableEq

/-- `result.content if hasattr(result, 'content') else str(result)` on the
message returned by `ask_tool` (a `Message` always has `content`; a
tool-call message's `None` content is embedded as `""`). -/
def decodedContent : DecodedMsg → String
  | .plain c => c
  | .withTools _ => ""

/-- `Agent.process_task` (src/app/swarm/multi_agent_pipeline.py lines
19-65): render the role/task/context prompt, call `ask_tool` or `ask`
depending on the task's `tool_type` flag (per-attempt outcomes are the
oracles `askToolBody` / `askBody`, run under the retry decorator), and
return the `{agent, role, result}` record; every exception is caught and
rendered as an inline `Error: ...` result string. -/
def processTask (ag : AgentRecM) (task : TaskM)
    (sharedContext : List (String × String))
    (askBody : String → Nat → Except PyExc String)
    (askToolBody : String → Nat → Except PyExc DecodedMsg) : TaskRecord :=
  let contextStr :=
    String.intercalate "\n"
      (sharedContext.map (fun p => p.1 ++ ": " ++ p.2))
  let fullInstructions :=
    "Role: " ++ ag.role ++ "\nTask: " ++ task.instructions ++
      "\n\nShared Context:\n" ++ contextStr ++
      "\n\nBe concise and direct in your response."
  let attempt : Except PyExc String :=
    if taskToolTypeTruthy task.tool_type then
      match tenacityRetry askRetryAttempts
          (fun i => toolAskAttempt (askToolBody fullInstructions i)) with
      | .ok msg => .ok (decodedContent msg)
      | .error e => .error e
    else
      tenacityRetry askRetryAttempts
        (fun i => plainAskAttempt (askBody fullInstructions i))
  match attempt with
  | .ok content =>
      { agent := ag.name, role := ag.role, result := content }
  | .error e =>
      { agent := ag.name, role := ag.role,
        result := "Error: " ++ pyExcStr e }

/-! ## Helper lemmas on substring search -/

theorem listStartsWith_append (p l t : List Char)
    (h : listStartsWith p l = true) : listStartsWith p (l ++ t) = true := by
  induction p generalizing l with
  | nil => simp [listStartsWith]
  | cons c ps ih =>
      cases l with
      | nil => simp [listStartsWith] at h
      | cons d ls =>
          simp [listStartsWith] at h ⊢
          exact ⟨h.1, ih ls h.2⟩

theorem listStartsWith_self (p t : List Char) :
    listStartsWith p (p ++ t) = true := by
  induction p with
  | nil => simp [listStartsWith]
  | cons c ps ih => simp [listStartsWith, ih]

theorem listHasSub_nil (l : List Char) : listHasSub l [] = true := by
  cases l with
  | nil => simp [listHasSub, listStartsWith]
  | cons c rest => simp [listHasSub, listStartsWith]

theorem listHasSub_mono_right (a b p : List Char)
    (h : listHasSub b p = true) : listHasSub (a ++ b) p = true := by
  induction a with
  | nil => simpa using h
  | cons c rest ih =>
      simp only [List.cons_append, listHasSub, Bool.or_eq_true]
      exact Or.inr ih

theorem listHasSub_mono_left (a b p : List Char)
    (h : listHasSub a p = true) : listHasSub (a ++ b) p = true := by
  induction a with
  | nil =>
      cases p with
      | nil => simpa using listHasSub_nil b
      | cons q qs => simp [listHasSub, listStartsWith] at h
  | cons c rest ih =>
      simp only [listHasSub, Bool.or_eq_true] at h
      simp only [List.cons_append, listHasSub, Bool.or_eq_true]
      cases h with
      | inl h1 => exact Or.inl (listStartsWith_append p (c :: rest) b h1)
      | inr h2 => exact Or.inr (ih h2)

theorem listHasSub_self_left (p b : List Char) : listHasSub (p ++ b) p = true := by
  cases hp : p with
  | nil =>
      cases b with
      | nil => simp [listHasSub, listStartsWith]
      | cons d ds => simp [listHasSub, listStartsWith]
  | cons c cs =>
      simp only [List.cons_append, listHasSub, Bool.or_eq_true]
      exact Or.inl (listStartsWith_self (c :: cs) b)

theorem strHasSub_mono_left (a b p : String)
    (h : strHasSub a p = true) : strHasSub (a ++ b) p = true := by
  unfold strHasSub at h ⊢
  rw [String.data_append]
  exact listHasSub_mono_left _ _ _ h

theorem strHasSub_mono_right (a b p : String)
    (h : strHasSub b p = true) : strHasSub (a ++ b) p = true := by
  unfold strHasSub at h ⊢
  rw [String.data_append]
  exact listHasSub_mono_right _ _ _ h

theorem strHasSub_self_left (p b : String) : strHasSub (p ++ b) p = true := by
  unfold strHasSub
  rw [String.data_append]
  exact listHasSub_self_left _ _

theorem strHasSub_self_right (a p : String) : strHasSub (a ++ p) p = true := by
  unfold strHasSub
  rw [String.data_append]
  have := listHasSub_self_left p.data []
  rw [List.append_nil] at this
  exact listHasSub_mono_right _ _ _ this

/-! ## Claim theorems -/

/-- Claim C10: for every call to `LLM.ask` (and the pipeline's synthesis
call) with an explicit temperature argument equal to `0.0`, the request is
sent using the instance's configured default temperature, not `0.0`: an
explicit per-call temperature overrides the instance default only when it is
nonzero, and `None` likewise falls back to the default.  (The synthesis call
passes the nonzero `0.2`, which therefore overrides.) -/
theorem C10_temperature_zero_falls_back (t selfTemp : ℚ) (ht : t ≠ 0) :
    effectiveTemperature (some 0) selfTemp = selfTemp ∧
    effectiveTemperature none selfTemp = selfTemp ∧
    effectiveTemperature (some t) selfTemp = t ∧
    effectiveTemperature synthesisTemperatureArg selfTemp = mkRat 2 10 := by
  refine ⟨by simp [effectiveTemperature], rfl, by simp [effectiveTemperature, ht], ?_⟩
  simp [effectiveTemperature, synthesisTemperatureArg]

/-- Witness for C10 at the synthesis temperature `0.2` and default `0.7`. -/
theorem C10_temperature_zero_falls_back_witness :
    effectiveTemperature (some 0) (mkRat 7 10) = mkRat 7 10 ∧
    effectiveTemperature none (mkRat 7 10) = mkRat 7 10 ∧
    effectiveTemperature (some (mkRat 2 10)) (mkRat 7 10) = mkRat 2 10 ∧
    effectiveTemperature synthesisTemperatureArg (mkRat 7 10) = mkRat 2 10 :=
  C10_temperature_zero_falls_back (mkRat 2 10) (mkRat 7 10) (by decide)

/-- Claim C3 (amended): a completion call that fails on attempts 1-5 and
succeeds on attempt 6 returns the successful result unchanged; one that
fails all 6 attempts raises `tenacity.RetryError` wrapping the last
underlying error (the decorator does not set `reraise=True`), not the bare
underlying error itself; the randomized exponential backoff is configured
with window bounds 1s and 60s. -/
theorem C3_retry_contract (f : Nat → Except PyExc String) (v : String)
    (es : Nat → PyExc) (h5 : ∀ i, i < 5 → f i = .error (es i)) :
    (f 5 = .ok v → tenacityRetry askRetryAttempts f = .ok v) ∧
    (f 5 = .error (es 5) →
      tenacityRetry askRetryAttempts f = .error (.retryError (es 5))) ∧
    askRetryAttempts = 6 ∧ askRetryWaitMin = 1 ∧ askRetryWaitMax = 60 := by
  have h0 := h5 0 (by omega)
  have h1 := h5 1 (by omega)
  have h2 := h5 2 (by omega)
  have h3 := h5 3 (by omega)
  have h4 := h5 4 (by omega)
  refine ⟨fun h6 => ?_, fun h6 => ?_, rfl, rfl, rfl⟩
  · simp [tenacityRetry, askRetryAttempts, tenacityRetryGo, h0, h1, h2, h3, h4, h6]
  · simp [tenacityRetry, askRetryAttempts, tenacityRetryGo, h0, h1, h2, h3, h4, h6]

/-- Witness for C3: five failures then a success on the sixth attempt. -/
theorem C3_retry_contract_witness :
    ((fun i => if i = 5 then .ok "done" else .error (.apiError "net down") :
        Nat → Except PyExc String) 5 = .ok "done" →
      tenacityRetry askRetryAttempts
        (fun i => if i = 5 then .ok "done" else .error (.apiError "net down")) =
        .ok "done") ∧
    askRetryAttempts = 6 :=
  ⟨((C3_retry_contract
      (fun i => if i = 5 then .ok "done" else .error (.apiError "net down"))
      "done" (fun _ => .apiError "net down")
      (fun i hi => by interval_cases i <;> rfl)).1),
   rfl⟩

/-- Counterexample for C3 as stated: when all 6 attempts fail, the raised
exception is `tenacity.RetryError` wrapping the last error, which is not the
underlying communication error itself. -/
theorem C3_counterexample :
    tenacityRetry askRetryAttempts
        (fun i => (.error (.apiError (Nat.repr i)) : Except PyExc String)) =
      .error (.retryError (.apiError "5")) ∧
    (Except.error (PyExc.retryError (.apiError "5")) : Except PyExc String) ≠
      .error (.apiError "5") :=
  ⟨rfl, by simp⟩

/-- Claim C2 (amended): a string `arguments` value that is valid JSON is
passed through unchanged; `"a: 1\nb: 2"` is recovered to the mapping
`{"a": " 1", "b": " 2"}` — keys stripped but values keeping the whitespace
after the colon — not `{"a":"1","b":"2"}`; and a string that is neither
valid JSON nor made of colon-separated lines is replaced by the empty
mapping `"{}"` rather than passed through untouched (recovery never raises,
so no call is dropped). -/
theorem C2_argument_recovery (loadsOk : String → Bool) (s : String)
    (h : loadsOk s = true) :
    cleanArguments loadsOk s = s ∧
    recoverArgsDict "a: 1\nb: 2" = [("a", " 1"), ("b", " 2")] ∧
    cleanArguments (fun _ => false) "a: 1\nb: 2" =
      "\x7b\"a\": \" 1\", \"b\": \" 2\"\x7d" ∧
    cleanArguments (fun _ => false) "hello" = "\x7b\x7d" := by
  exact ⟨by simp [cleanArguments, h], rfl, rfl, rfl⟩

/-- Witness for C2 on a valid-JSON argument string. -/
theorem C2_argument_recovery_witness :
    cleanArguments (fun _ => true) "\x7b\"url\": \"x\"\x7d" =
        "\x7b\"url\": \"x\"\x7d" ∧
    cleanArguments (fun _ => false) "hello" = "\x7b\x7d" :=
  ⟨(C2_argument_recovery (fun _ => true) "\x7b\"url\": \"x\"\x7d" rfl).1,
   (C2_argument_recovery (fun _ => true) "\x7b\"url\": \"x\"\x7d" rfl).2.2.2⟩

/-- Counterexample for C2 as stated: the code, given `"a: 1\nb: 2"`
(not valid JSON, so the `json.loads` validity oracle is `false` on it),
recovers the mapping `{"a": " 1", "b": " 2"}`, not the claimed
`{"a":"1","b":"2"}`; and `"hello"` (neither valid JSON nor recoverable) is
replaced by `"{}"` instead of being passed through untouched. -/
theorem C2_counterexample :
    recoverArgsDict "a: 1\nb: 2" = [("a", " 1"), ("b", " 2")] ∧
    recoverArgsDict "a: 1\nb: 2" ≠ [("a", "1"), ("b", "2")] ∧
    cleanArguments (fun _ => false) "hello" = "\x7b\x7d" ∧
    cleanArguments (fun _ => false) "hello" ≠ "hello" :=
  ⟨rfl, by decide, rfl, by decide⟩

/-- Claim C9 (amended): `Agent.process_task` always returns a structured
`{agent, role, result}` record carrying the agent's own name and role and
never raises — every exception degrades to an inline `Error: ...` result
string — but the 30s timeout it passes is not applied: `LLM.ask_tool`
accepts and ignores its `timeout` parameter (the HTTP request it issues uses
the hard-coded 120s non-streaming httpx timeout), and `LLM.ask` does not
accept a `timeout` keyword at all, so the plain-completion branch always
degrades to the inline error record even when the backend is healthy. -/
theorem C9_process_task_isolated (ag : AgentRecM) (task : TaskM)
    (ctx : List (String × String)) (askBody : String → Nat → Except PyExc String)
    (askToolBody : String → Nat → Except PyExc DecodedMsg) (t : ℚ)
    (hplain : task.tool_type = none) :
    (processTask ag task ctx askBody askToolBody).agent = ag.name ∧
    (processTask ag task ctx askBody askToolBody).role = ag.role ∧
    (processTask ag task ctx askBody askToolBody).result =
      "Error: " ++
        pyExcStr
          (.retryError (.typeError "ask() got an unexpected keyword argument")) ∧
    askToolRequestTimeout t = 120 ∧ (120 : ℚ) ≠ 30 := by
  rw [processTask, hplain]
  refine ⟨rfl, rfl, rfl, rfl, by decide⟩

/-- Witness for C9 on a plain research task with a healthy backend. -/
theorem C9_process_task_isolated_witness :
    (({ instructions := "x", tool_type := none } : TaskM).tool_type = none) ∧
    ((processTask { name := "researcher", llmKey := "default", role := "Research" }
        { instructions := "x", tool_type := none } []
        (fun _ _ => .ok "FINE") (fun _ _ => .ok (.plain "FINE"))).result =
      "Error: " ++
        pyExcStr
          (.retryError (.typeError "ask() got an unexpected keyword argument"))) :=
  ⟨rfl,
   (C9_process_task_isolated
      { name := "researcher", llmKey := "default", role := "Research" }
      { instructions := "x", tool_type := none } []
      (fun _ _ => .ok "FINE") (fun _ _ => .ok (.plain "FINE")) 30 rfl).2.2.1⟩

/-- Counterexample for C9 as stated: with a healthy backend (every plain
completion attempt would return "FINE"), the plain branch of `process_task`
still produces an inline error record, because `LLM.ask` has no `timeout`
parameter; and the timeout governing the completion request `ask_tool`
issues is the hard-coded 120s, not the 30s the claim says is applied. -/
theorem C9_counterexample :
    processTask { name := "researcher", llmKey := "default", role := "Research" }
        { instructions := "x", tool_type := none } []
        (fun _ _ => .ok "FINE") (fun _ _ => .ok (.plain "FINE")) =
      { agent := "researcher", role := "Research",
        result := "Error: RetryError: ask() got an unexpected keyword argument" } ∧
    "Error: RetryError: ask() got an unexpected keyword argument" ≠ "FINE" ∧
    askToolRequestTimeout 30 ≠ 30 :=
  ⟨rfl, by decide, by decide⟩

/-- Claim C8 (amended): a named configuration key maps to at most one
long-lived gateway instance that is never re-initialised once constructed —
but precisely because of that, the three pipeline agents do **not** get
gateway handles carrying their own model identifiers: each `Agent.__init__`
receives the same registered `"default"` instance and mutates it, so after
`MultiAgentPipeline` construction all three handles alias one instance whose
model is the last agent's `"llama3:8b"` and whose temperature is `0.3`. -/
theorem C8_shared_singleton (cfg : LLMSettingsM) (key : String)
    (store : LLMStore) (h : (store.lookup key).isSome = true) :
    llmNew key cfg store = (key, store) ∧
    (pipelineInit cfg []).1.map AgentRecM.llmKey =
      ["default", "default", "default"] ∧
    ((pipelineInit cfg []).2.lookup "default").map LLMInstM.model =
      some "llama3:8b" ∧
    ((pipelineInit cfg []).2.lookup "default").map LLMInstM.temperature =
      some (mkRat 3 10) := by
  refine ⟨by simp [llmNew, h], ?_, ?_, ?_⟩ <;>
    simp [pipelineInit, agentInitM, llmNew, llmInitFields, storeUpdate,
      dictSet, List.lookup]

/-- Witness for C8 with a concrete configuration and registry. -/
theorem C8_shared_singleton_witness :
    (([("default",
        ({ model := "m", temperature := 1, hasClient := true } : LLMInstM))] :
          LLMStore).lookup "default").isSome = true ∧
    llmNew "default" { model := "m0", temperature := 1 }
        [("default", { model := "m", temperature := 1, hasClient := true })] =
      ("default",
       [("default", { model := "m", temperature := 1, hasClient := true })]) ∧
    ((pipelineInit { model := "m0", temperature := 1 } []).2.lookup
        "default").map LLMInstM.model = some "llama3:8b" :=
  ⟨rfl,
   (C8_shared_singleton { model := "m0", temperature := 1 } "default"
      [("default", { model := "m", temperature := 1, hasClient := true })]
      rfl).1,
   (C8_shared_singleton { model := "m0", temperature := 1 } "default"
      [("default", { model := "m", temperature := 1, hasClient := true })]
      rfl).2.2.1⟩

/-- Counterexample for C8 as stated: after `MultiAgentPipeline` construction
the `browser_navigator` agent's gateway handle (the `"default"` registry
entry all three agents share) carries model `"llama3:8b"` — the synthesis
agent's model — not its own `"mistral:latest"`. -/
theorem C8_counterexample :
    (pipelineInit { model := "m0", temperature := 1 } []).1.map
        AgentRecM.llmKey = ["default", "default", "default"] ∧
    (pipelineInit { model := "m0", temperature := 1 } []).2.lookup "default" =
      some { model := "llama3:8b", temperature := mkRat 3 10,
             hasClient := true } ∧
    ("llama3:8b" : String) ≠ "mistral:latest" :=
  ⟨rfl, by decide, by decide⟩

/-- Claim C6: when tool-choice mode is REQUIRED and the model returned zero
tool calls, `act()` raises `ValueError("Tool calls required but none
provided")` while `think()` still signals continue; when mode is AUTO and
the model returned zero tool calls and zero content, `think()` signals
stop. -/
theorem C6_required_and_auto_modes (resp : MessageRec) (st stAct : AgentSt)
    (executeTool : ToolCallRec → AgentSt → Except PyExc (String × AgentSt))
    (hcalls : stAct.tool_calls = []) (hresp : resp.tool_calls = [])
    (hcontent : contentTruthy resp.content = false) :
    act executeTool .REQUIRED stAct =
      .error (.valueError "Tool calls required but none provided") ∧
    (thinkDecision resp .REQUIRED st).1 = true ∧
    (thinkDecision resp .AUTO st).1 = false := by
  refine ⟨?_, ?_, ?_⟩
  · simp [act, hcalls, toolCallRequiredMsg]
  · simp [thinkDecision, hresp]
  · simp [thinkDecision, hresp, hcontent]

/-- Witness for C6: an empty assistant response and an agent with no pending
calls. -/
theorem C6_required_and_auto_modes_witness :
    (initialAgentSt.tool_calls = []) ∧
    ((assistantMessage none).tool_calls = []) ∧
    (contentTruthy (assistantMessage none).content = false) ∧
    act (fun _ s => .ok ("r", s)) .REQUIRED initialAgentSt =
      .error (.valueError "Tool calls required but none provided") ∧
    (thinkDecision (assistantMessage none) .REQUIRED initialAgentSt).1 = true ∧
    (thinkDecision (assistantMessage none) .AUTO initialAgentSt).1 = false :=
  ⟨rfl, rfl, rfl,
   (C6_required_and_auto_modes (assistantMessage none) initialAgentSt
      initialAgentSt (fun _ s => .ok ("r", s)) rfl rfl rfl).1,
   (C6_required_and_auto_modes (assistantMessage none) initialAgentSt
      initialAgentSt (fun _ s => .ok ("r", s)) rfl rfl rfl).2.1,
   (C6_required_and_auto_modes (assistantMessage none) initialAgentSt
      initialAgentSt (fun _ s => .ok ("r", s)) rfl rfl rfl).2.2⟩

/-- Claim C5: when the termination tool (the default special-tool list) runs
with `status="success"` and the finish predicate holds (it is constantly
true) and the summary completion call succeeds, `_handle_special_tool`
generates the final summary, stores it, and moves the agent state to
FINISHED; the stored summary carries the envelope and contains the literal
string "success". -/
theorem C5_terminate_finishes
    (primaryAsk fallbackAsk : String → Except PyExc String) (s : String)
    (st : AgentSt) (h : ∀ p, primaryAsk p = .ok s) :
    (handleSpecialTool defaultSpecialToolNames primaryAsk fallbackAsk
        "terminate" (some [("status", "success")]) st).state = .FINISHED ∧
    hasEnvelope (handleSpecialTool defaultSpecialToolNames primaryAsk
        fallbackAsk "terminate" (some [("status", "success")]) st).final_summary =
      true ∧
    strHasSub (handleSpecialTool defaultSpecialToolNames primaryAsk fallbackAsk
        "terminate" (some [("status", "success")]) st).final_summary "success" =
      true := by
  have hspecial : isSpecialTool defaultSpecialToolNames "terminate" = true := rfl
  have hlow : (pyLower "terminate" == "terminate") = true := rfl
  refine ⟨?_, ?_, ?_⟩
  · simp [handleSpecialTool, hspecial, hlow, shouldFinishExecution,
      generateSummary, h]
  · simp [handleSpecialTool, hspecial, hlow, shouldFinishExecution,
      generateSummary, h, hasEnvelope]
    constructor
    · exact strHasSub_mono_left _ _ _ (strHasSub_mono_left _ _ _
        (strHasSub_mono_left _ _ _ (strHasSub_mono_left _ _ _
          (strHasSub_self_right _ _))))
    · exact strHasSub_self_right _ _
  · simp [handleSpecialTool, hspecial, hlow, shouldFinishExecution,
      generateSummary, h]
    exact strHasSub_mono_left _ _ _ (strHasSub_mono_left _ _ _
      (strHasSub_mono_left _ _ _ (strHasSub_mono_left _ _ _
        (strHasSub_mono_left _ _ _ (by rfl)))))

/-- Witness for C5: a concrete terminate call against a healthy backend. -/
theorem C5_terminate_finishes_witness :
    (∀ p, (fun _ : String => (Except.ok "All done" : Except PyExc String)) p =
      .ok "All done") ∧
    (handleSpecialTool defaultSpecialToolNames (fun _ => .ok "All done")
        (fun _ => .ok "fb") "terminate" (some [("status", "success")])
        initialAgentSt).state = .FINISHED ∧
    strHasSub (handleSpecialTool defaultSpecialToolNames
        (fun _ => .ok "All done") (fun _ => .ok "fb") "terminate"
        (some [("status", "success")]) initialAgentSt).final_summary "success" =
      true :=
  ⟨fun _ => rfl,
   (C5_terminate_finishes (fun _ => .ok "All done") (fun _ => .ok "fb")
      "All done" initialAgentSt (fun _ => rfl)).1,
   (C5_terminate_finishes (fun _ => .ok "All done") (fun _ => .ok "fb")
      "All done" initialAgentSt (fun _ => rfl)).2.2⟩

/-- The fallback summary generator always stores enveloped text, whichever
way its completion call goes. -/
theorem hasEnvelope_fallbackSummary (fallbackAsk : String → Except PyExc String)
    (st : AgentSt) :
    hasEnvelope (generateFallbackSummary fallbackAsk st).final_summary = true := by
  unfold generateFallbackSummary
  cases hf : fallbackAsk
      (st.original_question ++ " Keep your answer simple and under 150 words.") with
  | ok summary =>
      simp only [hf, hasEnvelope, Bool.and_eq_true]
      constructor
      · exact strHasSub_mono_left _ _ _ (strHasSub_mono_left _ _ _
          (strHasSub_mono_left _ _ _ (strHasSub_self_left _ _)))
      · exact strHasSub_self_right _ _
  | error e =>
      simp only [hf, hasEnvelope, Bool.and_eq_true]
      constructor
      · exact strHasSub_mono_left _ _ _ (strHasSub_mono_left _ _ _
          (strHasSub_mono_left _ _ _ (strHasSub_self_left _ _)))
      · exact strHasSub_self_right _ _

/-- Claim C4 (amended): `ToolCallAgent.run` never propagates an exception to
the caller (the embedding is total over all loop and completion-call
outcomes) and returns text carrying the exact
`===== FINAL ANSWER =====` / `=======================` envelope in every
case **except** one: when the primary summary call inside
`_generate_summary` fails, its `except` branch returns the bare string
`"The interaction has been completed."`, which overwrites the enveloped
fallback text and reaches the caller without the envelope.  The hypothesis
captures what the inherited loop can leave behind: either no summary or an
enveloped one. -/
theorem C4_run_envelope (superRun : AgentSt → Except PyExc AgentSt)
    (primaryAsk fallbackAsk : String → Except PyExc String) (q : String)
    (st : AgentSt)
    (hloop : ∀ st1,
      superRun { st with original_question := q, tool_results := [] } =
          .ok st1 →
        st1.final_summary = "" ∨ hasEnvelope st1.final_summary = true) :
    hasEnvelope (runAgent superRun primaryAsk fallbackAsk q st).1 = true ∨
    (runAgent superRun primaryAsk fallbackAsk q st).1 =
      "The interaction has been completed." := by
  unfold runAgent
  cases hs : superRun { st with original_question := q, tool_results := [] } with
  | error e =>
      left
      simp only [hs]
      exact hasEnvelope_fallbackSummary fallbackAsk _
  | ok st1 =>
      rcases hloop st1 hs with hempty | henv
      · simp only [hs, hempty, if_pos rfl]
        unfold generateSummary
        cases hp : primaryAsk ("Please provide a clear answer to this question: \"" ++
            (if st1.original_question ≠ "" then st1.original_question
             else firstUserContent st1.memory) ++
            "\"\n\nKeep your answer direct, informative, and under 200 words.") with
        | ok s =>
            left
            simp only [hp, hasEnvelope, Bool.and_eq_true, if_true]
            refine ⟨?_, ?_⟩
            · exact strHasSub_mono_left _ _ _ (strHasSub_mono_left _ _ _
                (strHasSub_mono_left _ _ _ (strHasSub_mono_left _ _ _
                  (strHasSub_self_right _ _))))
            · exact strHasSub_self_right _ _
        | error e =>
            right
            simp only [hp]
            simp
      · have hne : st1.final_summary ≠ "" := by
          intro h0
          rw [h0] at henv
          exact absurd henv (by decide)
        simp only [hs, if_neg hne]
        left
        exact henv

/-- Witness for C4: a loop that leaves no summary and a healthy backend
yield enveloped text. -/
theorem C4_run_envelope_witness :
    (∀ st1, (fun s : AgentSt => (Except.ok s : Except PyExc AgentSt))
        { initialAgentSt with
          original_question := "What is 2+2?"
          tool_results := [] } = .ok st1 →
      st1.final_summary = "" ∨ hasEnvelope st1.final_summary = true) ∧
    (hasEnvelope (runAgent (fun s => .ok s) (fun _ => .ok "4")
        (fun _ => .ok "4") "What is 2+2?" initialAgentSt).1 = true ∨
     (runAgent (fun s => .ok s) (fun _ => .ok "4") (fun _ => .ok "4")
        "What is 2+2?" initialAgentSt).1 =
       "The interaction has been completed.") :=
  ⟨fun st1 h => Or.inl (by cases h; rfl),
   C4_run_envelope (fun s => .ok s) (fun _ => .ok "4") (fun _ => .ok "4")
     "What is 2+2?" initialAgentSt
     (fun st1 h => Or.inl (by cases h; rfl))⟩

/-- Counterexample for C4 as stated: with a loop that finishes cleanly
without a summary and a primary summary call that fails (while the fallback
call succeeds), `run` returns exactly
`"The interaction has been completed."` — text not wrapped in the required
envelope. -/
theorem C4_counterexample :
    (runAgent (fun s => .ok s) (fun _ => .error (.apiError "backend down"))
        (fun _ => .ok "recovered") "q" initialAgentSt).1 =
      "The interaction has been completed." ∧
    hasEnvelope "The interaction has been completed." = false :=
  ⟨rfl, rfl⟩

/-- Claim C1 (amended): with tools supplied and tool choice not NONE, the
decode boundary of `LLM.ask_tool` returns the whole text as a plain
assistant message (with a logged warning) whenever the text contains no
parsable JSON, or parses to an object lacking a `tool_calls` key, or a
`KeyError` is raised while reading an entry — but only
`json.JSONDecodeError` and `KeyError` are caught, so a parsed value of
unexpected non-container shape (for example the response text `5`) raises
`TypeError` past the decode boundary. -/
theorem C1_decode_boundary (loads : String → Option PyJson)
    (loadsOk : String → Bool) (fresh : Nat → String) (text : String) :
    (loads (extractJsonText text) = none →
      decodeToolResponse loads loadsOk fresh text = .ok (.plain text)) ∧
    (∀ kvs, loads (extractJsonText text) = some (.obj kvs) →
      kvs.any (fun p => p.1 == "tool_calls") = false →
      decodeToolResponse loads loadsOk fresh text = .ok (.plain text)) ∧
    decodeToolResponse (fun s => if s == "5" then some (.num 5) else none)
        loadsOk fresh "5" =
      .error (.typeError "argument of type is not iterable") := by
  refine ⟨fun h => ?_, fun kvs h1 h2 => ?_, rfl⟩
  · simp [decodeToolResponse, h]
  · simp [decodeToolResponse, h1, pyIn, h2, Except.bind, bind, pure, Except.pure]

/-- Witness for C1: unparsable text degrades to a plain assistant message. -/
theorem C1_decode_boundary_witness :
    ((fun _ : String => (none : Option PyJson))
        (extractJsonText "I cannot use a tool here.") = none) ∧
    decodeToolResponse (fun _ => none) (fun _ => false) (fun _ => "u")
        "I cannot use a tool here." =
      .ok (.plain "I cannot use a tool here.") :=
  ⟨rfl,
   (C1_decode_boundary (fun _ => none) (fun _ => false) (fun _ => "u")
      "I cannot use a tool here.").1 rfl⟩

/-- Counterexample for C1 as stated: the response text `5` parses as the
JSON number 5 (the `json.loads` oracle returns it for the extracted text),
and the decode boundary then raises `TypeError` at
`"tool_calls" in response_json` — it is not returned as a plain assistant
message, so decoding does raise past the boundary for this response text. -/
theorem C1_counterexample :
    decodeToolResponse (fun s => if s == "5" then some (.num 5) else none)
        (fun _ => false) (fun _ => "u") "5" =
      .error (.typeError "argument of type is not iterable") ∧
    ∀ m, decodeToolResponse (fun s => if s == "5" then some (.num 5) else none)
        (fun _ => false) (fun _ => "u") "5" ≠ .ok m := by
  refine ⟨rfl, fun m h => ?_⟩
  rw [show decodeToolResponse (fun s => if s == "5" then some (.num 5) else none)
      (fun _ => false) (fun _ => "u") "5" =
      .error (.typeError "argument of type is not iterable") from rfl] at h
  exact Except.noConfusion h

/-! ## Helper lemmas for the cache claim -/

theorem dictSet_append {β : Type} (d : List (String × β)) (k : String) (v : β)
    (h : ¬ k ∈ d.map Prod.fst) : dictSet d k v = d ++ [(k, v)] := by
  induction d with
  | nil => rfl
  | cons p rest ih =>
      obtain ⟨k1, v1⟩ := p
      simp only [List.map_cons, List.mem_cons] at h
      push_neg at h
      simp only [dictSet]
      rw [if_neg (fun hh => h.1 hh.symm)]
      simp [ih h.2]

theorem lookupNone_of_not_mem {β : Type} (d : List (String × β)) (k : String)
    (h : ¬ k ∈ d.map Prod.fst) : d.lookup k = none := by
  induction d with
  | nil => rfl
  | cons p rest ih =>
      obtain ⟨k1, v1⟩ := p
      simp only [List.map_cons, List.mem_cons] at h
      push_neg at h
      simp only [List.lookup]
      rw [show (k == k1) = false from beq_eq_false_iff_ne.mpr h.1]
      exact ih h.2

theorem lookupMem_of_nodup {β : Type} (d : List (String × β)) (k : String)
    (v : β) (hnd : (d.map Prod.fst).Nodup) (hmem : (k, v) ∈ d) :
    d.lookup k = some v := by
  induction d with
  | nil => cases hmem
  | cons p rest ih =>
      obtain ⟨k1, v1⟩ := p
      simp only [List.map_cons, List.nodup_cons] at hnd
      rcases List.mem_cons.mp hmem with heq | hrest
      · injection heq with hk hv
        subst hk
        subst hv
        simp [List.lookup]
      · have hkmem : k ∈ rest.map Prod.fst :=
          List.mem_map.mpr ⟨(k, v), hrest, rfl⟩
        have hne : k ≠ k1 := fun hh => hnd.1 (hh ▸ hkmem)
        simp only [List.lookup]
        rw [show (k == k1) = false from beq_eq_false_iff_ne.mpr hne]
        exact ih hnd.2 hrest

/-- Inserting fresh, pairwise-distinct keys into a cache with enough spare
capacity appends them in insertion order, with no eviction. -/
theorem cacheSetMany_fill (ps : List (String × String)) (c : ResponseCache)
    (hlen : c.cache.length + ps.length ≤ c.max_size)
    (hfresh : ∀ p ∈ ps, ¬ p.1 ∈ c.cache.map Prod.fst)
    (hnd : (ps.map Prod.fst).Nodup) :
    cacheSetMany c ps =
      some { cache := c.cache ++ ps, max_size := c.max_size } := by
  induction ps generalizing c with
  | nil => simp [cacheSetMany, List.foldlM]
  | cons p rest ih =>
      obtain ⟨k, v⟩ := p
      have hlt : ¬ c.cache.length ≥ c.max_size := by
        simp only [List.length_cons] at hlen
        omega
      have hnotin : ¬ k ∈ c.cache.map Prod.fst := hfresh (k, v) (by simp)
      have hset : cacheSet c k v =
          some { cache := c.cache ++ [(k, v)], max_size := c.max_size } := by
        unfold cacheSet
        rw [if_neg hlt, dictSet_append _ _ _ hnotin]
      simp only [List.map_cons, List.nodup_cons] at hnd
      have hrest := ih { cache := c.cache ++ [(k, v)], max_size := c.max_size }
        (by simp only [List.length_append, List.length_cons] at hlen ⊢; simp; omega)
        (by
          intro q hq
          simp only [List.map_append, List.mem_append]
          push_neg
          refine ⟨hfresh q (List.mem_cons_of_mem _ hq), ?_⟩
          simp only [List.map_cons, List.map_nil, List.mem_singleton]
          intro hqk
          exact hnd.1 (hqk ▸ List.mem_map.mpr ⟨q, hq, rfl⟩))
        hnd.2
      simp only [cacheSetMany, List.foldlM] at hrest ⊢
      rw [hset]
      simp only [Option.bind_eq_bind, Option.some_bind] at *
      rw [hrest]
      simp [List.append_assoc]

/-- Claim C7: for any cache capacity `N ≥ 1` (here `N` is the length of the
first `N` inserted pairs `f0 :: ftail`), inserting `N+1` pairwise-distinct
keys into an empty bounded cache evicts exactly the first-inserted key and
no more-recently-inserted one: afterwards the first key is absent and every
other inserted key still maps to its value, the surviving entries being
exactly the later `N` in insertion order (FIFO, not LRU). -/
theorem C7_cache_fifo (f0 lastp : String × String)
    (ftail : List (String × String))
    (hnodup : (((f0 :: ftail) ++ [lastp]).map Prod.fst).Nodup) :
    ∃ c, cacheSetMany (responseCacheNew (f0 :: ftail).length)
          ((f0 :: ftail) ++ [lastp]) = some c ∧
      c.cache = ftail ++ [lastp] ∧
      cacheGet c f0.1 = none ∧
      ∀ p ∈ ftail ++ [lastp], cacheGet c p.1 = some p.2 := by
  have hmap : (((f0 :: ftail) ++ [lastp]).map Prod.fst) =
      f0.1 :: (ftail.map Prod.fst ++ [lastp.1]) := by simp
  rw [hmap, List.nodup_cons] at hnodup
  obtain ⟨hf0, hrestnd⟩ := hnodup
  have hlast_notin : ¬ lastp.1 ∈ ftail.map Prod.fst := by
    intro hmem
    rw [List.nodup_append] at hrestnd
    exact hrestnd.2.2 hmem (by simp)
  have hfrontnd : ((f0 :: ftail).map Prod.fst).Nodup := by
    rw [List.map_cons, List.nodup_cons]
    constructor
    · intro hmem
      exact hf0 (List.mem_append_left _ hmem)
    · exact (List.nodup_append.mp hrestnd).1
  have hfill := cacheSetMany_fill (f0 :: ftail)
    (responseCacheNew (f0 :: ftail).length)
    (by simp [responseCacheNew])
    (by intro q hq; simp [responseCacheNew])
    hfrontnd
  have hlaststep : cacheSet
      { cache := f0 :: ftail
        max_size := (f0 :: ftail).length } lastp.1 lastp.2 =
      some { cache := ftail ++ [lastp]
             max_size := (f0 :: ftail).length } := by
    unfold cacheSet
    rw [if_pos (by simp)]
    simp only [dictDel, eq_self_iff_true, if_true]
    rw [dictSet_append _ _ _ hlast_notin]
  refine ⟨{ cache := ftail ++ [lastp], max_size := (f0 :: ftail).length },
    ?_, rfl, ?_, ?_⟩
  · unfold cacheSetMany at hfill ⊢
    rw [List.foldlM_append, hfill]
    simp only [Option.bind_eq_bind, Option.some_bind, List.foldlM,
      responseCacheNew, List.nil_append]
    rw [hlaststep]
    rfl
  · unfold cacheGet
    apply lookupNone_of_not_mem
    simpa using hf0
  · intro p hp
    unfold cacheGet
    apply lookupMem_of_nodup _ _ _ _ hp
    simpa using hrestnd

/-- Witness for C7 at capacity 2 with three distinct keys. -/
theorem C7_cache_fifo_witness :
    (((("k1", "v1") :: [("k2", "v2")]) ++ [("k3", "v3")]).map Prod.fst).Nodup ∧
    (∃ c, cacheSetMany (responseCacheNew (("k1", "v1") :: [("k2", "v2")]).length)
          ((("k1", "v1") :: [("k2", "v2")]) ++ [("k3", "v3")]) = some c ∧
      c.cache = [("k2", "v2")] ++ [("k3", "v3")] ∧
      cacheGet c ("k1", "v1").1 = none ∧
      ∀ p ∈ [("k2", "v2")] ++ [("k3", "v3")], cacheGet c p.1 = some p.2) :=
  ⟨by decide,
   C7_cache_fifo ("k1", "v1") ("k3", "v3") [("k2", "v2")] (by decide)⟩

end SmuLLM
